import Mathlib

/-!
Shallow embedding of the UniHaven campus-housing backend
(`core/models.py`, `core/views.py`) and proofs about its
search / reservation / rating / audit behaviour.

Conventions of the embedding:
* Database rows become Lean structures; the database becomes an explicit
  `State` record of lists, threaded through every operation.
* Django string enumerations (reservation status, action types) stay
  strings, exactly as in the code.
* Dates are integers (day numbers); `DecimalField` rents are integers
  (amounts in cents).  Only the order structure of these fields matters
  to the code.
* Float geo-distances are treated in two parts: the pure formula
  `calculate_distance` is embedded over the real numbers, and the search
  endpoint takes the distance function as an explicit parameter
  (`dist : Accommodation → Campus → Rat`), abstracting the
  floating-point evaluation the ORM layer performs.
* Fields never read by any verified endpoint (photos, timestamps,
  free-text addresses, owner contact data) are omitted.
* Each HTTP handler becomes a function `… → State → State × Except ApiError α`:
  the returned state is the database after the call, and the `Except`
  value is the response (error responses carry the view's message).
-/

namespace UniHaven

/-- Error responses produced by the views: HTTP 400 (validation / conflict)
and HTTP 404 (not found), with the message string from the source. -/
inductive ApiError where
  | badRequest (msg : String)
  | notFound (msg : String)
deriving DecidableEq, Repr

/-- `core.models.Member`: identity plus the university foreign key. -/
structure Member where
  id : Nat
  university : Nat
deriving DecidableEq, Repr

/-- `core.models.Specialist`: identity plus the university foreign key. -/
structure Specialist where
  id : Nat
  university : Nat
deriving DecidableEq, Repr

/-- `core.models.Campus`: a distance-ranking anchor.  Its float
coordinates are consumed only through the abstract distance parameter of
`AccommodationViewSet.search`, so only the identity is kept here. -/
structure Campus where
  id : Nat
deriving DecidableEq, Repr

/-- `core.models.Accommodation`: the fields read by the verified
endpoints.  `universities` is the many-to-many set of university ids. -/
structure Accommodation where
  id : Nat
  name : String
  type : String
  num_bedrooms : Nat
  num_beds : Nat
  available_from : Int
  available_to : Int
  monthly_rent : Int
  is_available : Bool
  universities : List Nat
deriving DecidableEq, Repr

/-- `core.models.Reservation`: `accommodation` and `member` are the
foreign-key ids; `status` is one of the four `STATUS_CHOICES` strings. -/
structure Reservation where
  id : Nat
  accommodation : Nat
  member : Nat
  reserved_from : Int
  reserved_to : Int
  contact_name : String
  contact_phone : String
  status : String
deriving DecidableEq, Repr

/-- `core.models.Rating`: one-to-one with a reservation, with the
moderation fields written by `RatingViewSet.moderate`. -/
structure Rating where
  id : Nat
  accommodation : Nat
  member : Nat
  reservation : Nat
  score : Int
  is_approved : Bool
  moderated_by : Option Nat
  moderation_date : Option Int
  moderation_note : String
deriving DecidableEq, Repr

/-- `core.models.ActionLog`: one immutable audit entry.  The field
defaults mirror the model defaults (`user_type='SPECIALIST'`, nullable
ids). -/
structure ActionLog where
  action_type : String
  user_type : String := "SPECIALIST"
  user_id : Option Nat := none
  accommodation_id : Option Nat := none
  reservation_id : Option Nat := none
  rating_id : Option Nat := none
  details : String := ""
deriving DecidableEq, Repr

/-- The database: one list per table, plus auto-increment counters for
the rows the verified endpoints create. -/
structure State where
  accommodations : List Accommodation := []
  reservations : List Reservation := []
  ratings : List Rating := []
  members : List Member := []
  specialists : List Specialist := []
  campuses : List Campus := []
  logs : List ActionLog := []
  nextReservationId : Nat := 1
  nextRatingId : Nat := 1
deriving DecidableEq, Repr

/-! ### Row lookup and row update helpers (the ORM primitives used) -/

/-- `Model.objects.get(id=pk)` / DRF `get_object()` on a queryset. -/
def State.findAccommodation (s : State) (pk : Nat) : Option Accommodation :=
  s.accommodations.find? (fun a => a.id == pk)

def State.findReservation (s : State) (pk : Nat) : Option Reservation :=
  s.reservations.find? (fun r => r.id == pk)

def State.findRating (s : State) (pk : Nat) : Option Rating :=
  s.ratings.find? (fun r => r.id == pk)

def State.findMember (s : State) (pk : Nat) : Option Member :=
  s.members.find? (fun m => m.id == pk)

def State.findSpecialist (s : State) (pk : Nat) : Option Specialist :=
  s.specialists.find? (fun sp => sp.id == pk)

def State.findCampus (s : State) (pk : Nat) : Option Campus :=
  s.campuses.find? (fun c => c.id == pk)

/-- `accommodation.is_available = b; accommodation.save()`. -/
def setAccommodationAvailability (l : List Accommodation) (pk : Nat) (b : Bool) :
    List Accommodation :=
  l.map (fun a => if a.id == pk then { a with is_available := b } else a)

/-- `reservation.status = st; reservation.save()`. -/
def setReservationStatus (l : List Reservation) (pk : Nat) (st : String) :
    List Reservation :=
  l.map (fun r => if r.id == pk then { r with status := st } else r)

/-! ### Sorting (`queryset.order_by`, Python `list.sort(key=...)`) -/

def insertByKey {α β : Type} [LinearOrder β] (key : α → β) (a : α) :
    List α → List α
  | [] => [a]
  | b :: l => if key a ≤ key b then a :: b :: l else b :: insertByKey key a l

/-- Stable insertion sort by a key function; models both the ORM
`order_by` and the Python stable `sort` used for distance ranking. -/
def sortByKey {α β : Type} [LinearOrder β] (key : α → β) : List α → List α
  | [] => []
  | a :: l => insertByKey key a (sortByKey key l)

/-! ### `core.models` methods -/

/-- `Reservation.can_be_rated`: `status == 'COMPLETED' and not hasattr(self, 'rating')`;
the `hasattr` probes the one-to-one reverse of `Rating.reservation`. -/
def Reservation.can_be_rated (r : Reservation) (s : State) : Bool :=
  r.status == "COMPLETED" && !(s.ratings.any (fun rt => rt.reservation == r.id))

/-- `Reservation.can_be_cancelled`: `status == 'PENDING'`. -/
def Reservation.can_be_cancelled (r : Reservation) : Bool :=
  r.status == "PENDING"

/-- `Reservation.cancel` (the model method, `models.py` lines 287-299):
mutates inside the `if`, but the `return False` sits outside it, so the
method returns `False` on every path. -/
def Reservation.cancel (r : Reservation) (s : State) : State × Bool :=
  if r.can_be_cancelled then
    let s := { s with reservations := setReservationStatus s.reservations r.id "CANCELLED" }
    let s := { s with accommodations :=
      setAccommodationAvailability s.accommodations r.accommodation true }
    (s, false)
  else
    (s, false)

/-! ### `AccommodationViewSet.search` -/

/-- The query parameters of `GET /accommodations/search`.  `none` models
an absent (or empty, hence falsy) parameter; `sort_by` defaults to
`'distance'` as in `request.query_params.get('sort_by', 'distance')`. -/
structure SearchParams where
  type : Option String := none
  available_from : Option Int := none
  available_to : Option Int := none
  num_beds : Option Nat := none
  num_bedrooms : Option Nat := none
  min_price : Option Int := none
  max_price : Option Int := none
  campus_id : Option Nat := none
  sort_by : String := "distance"
  member_id : Option Nat := none
deriving DecidableEq, Repr

/-- One conditional `queryset.filter(...)` step: applied only when the
query parameter is present. -/
def optFilter {α β : Type} (o : Option β) (pred : β → α → Bool) (l : List α) :
    List α :=
  match o with
  | none => l
  | some v => l.filter (pred v)

/-- Step 3 of `search`: the seven conditional filters, in source order. -/
def applyFilters (p : SearchParams) (l : List Accommodation) : List Accommodation :=
  let q := optFilter p.type (fun t a => a.type == t) l
  let q := optFilter p.available_from (fun v a => a.available_from ≤ v) q
  let q := optFilter p.available_to (fun v a => v ≤ a.available_to) q
  let q := optFilter p.num_beds (fun v a => v ≤ a.num_beds) q
  let q := optFilter p.num_bedrooms (fun v a => v ≤ a.num_bedrooms) q
  let q := optFilter p.min_price (fun v a => v ≤ a.monthly_rent) q
  let q := optFilter p.max_price (fun v a => a.monthly_rent ≤ v) q
  q

/-- The reverse-FK condition of the `exclude` call in step 4: some
reservation of this accommodation is PENDING or CONFIRMED and strictly
overlaps `[f, t)` in the half-open sense. -/
def hasOverlappingReservation (s : State) (f t : Int) (a : Accommodation) : Bool :=
  s.reservations.any (fun r =>
    r.accommodation == a.id &&
    r.reserved_from < t &&
    r.reserved_to > f &&
    (r.status == "PENDING" || r.status == "CONFIRMED"))

/-- Step 4 of `search`: the `exclude(...)` runs only when both bounds
were supplied (`if available_from and available_to`). -/
def excludeOverlapping (p : SearchParams) (s : State) (l : List Accommodation) :
    List Accommodation :=
  match p.available_from, p.available_to with
  | some f, some t => l.filter (fun a => !hasOverlappingReservation s f t a)
  | _, _ => l

/-- Steps 2-4 of `search` for a resolved member: university + availability
base filter, the optional filters, then the overlap exclusion. -/
def searchQueryset (p : SearchParams) (s : State) (member : Member) :
    List Accommodation :=
  let queryset := s.accommodations.filter (fun a =>
    a.universities.any (fun u => u == member.university) && a.is_available)
  let queryset := applyFilters p queryset
  excludeOverlapping p s queryset

/-- A response row: the accommodation plus the optional `distance`
annotation added only on the campus-sort path. -/
abbrev SearchRow := Accommodation × Option Rat

/-- `AccommodationViewSet.search` (`views.py` lines 102-192).  `dist` is
the injected `Accommodation.calculate_distance` evaluation (its real
formula is verified separately as `calculate_distance`). -/
def AccommodationViewSet.search (p : SearchParams)
    (dist : Accommodation → Campus → Rat) (s : State) :
    Except ApiError (List SearchRow) :=
  match p.member_id with
  | none => .error (.badRequest "member_id is required for searching accommodations")
  | some mid =>
    match s.findMember mid with
    | none => .error (.notFound "Member not found")
    | some member =>
      let queryset := searchQueryset p s member
      if p.sort_by == "price_asc" then
        .ok ((sortByKey (fun a => a.monthly_rent) queryset).map (fun a => (a, none)))
      else if p.sort_by == "price_desc" then
        .ok ((sortByKey (fun a => -a.monthly_rent) queryset).map (fun a => (a, none)))
      else
        match p.campus_id with
        | some cid =>
          match s.findCampus cid with
          | some campus =>
            let accommodations_with_distance :=
              queryset.map (fun a => (a, dist a campus))
            let sorted := sortByKey (fun x => x.2) accommodations_with_distance
            .ok (sorted.map (fun x => (x.1, some x.2)))
          | none => .error (.notFound "Campus not found")
        | none => .ok (queryset.map (fun a => (a, none)))

/-! ### `AccommodationViewSet.reserve` -/

/-- Body of `POST /accommodations/{pk}/reserve`. -/
structure ReserveRequest where
  member_id : Option Nat := none
  reserved_from : Option Int := none
  reserved_to : Option Int := none
  contact_name : Option String := none
  contact_phone : Option String := none
deriving DecidableEq, Repr

/-- Modelled from the spec: `core.utils.validate_required_fields` is not
under `src/`; the spec classifies missing required fields as validation
errors rejected before any mutation.  It holds exactly when all five
required reserve fields are present. -/
def validate_required_fields (req : ReserveRequest) : Bool :=
  req.member_id.isSome && req.reserved_from.isSome && req.reserved_to.isSome &&
  req.contact_name.isSome && req.contact_phone.isSome

/-- Modelled from the spec: `ReservationSerializer` is not under `src/`;
per the spec's error taxonomy an unknown member is rejected before any
mutation, so validity requires the member foreign key to resolve. -/
def reservationSerializerValid (s : State) (memberId : Nat) : Bool :=
  s.members.any (fun m => m.id == memberId)

/-- The audit entry written by a successful `reserve`. -/
def createReservationLog (memberId accId resId : Nat) (accName : String) : ActionLog :=
  { action_type := "CREATE_RESERVATION"
    user_type := "MEMBER"
    user_id := some memberId
    accommodation_id := some accId
    reservation_id := some resId
    details := "Created reservation for \x27" ++ accName ++ "\x27" }

/-- `AccommodationViewSet.reserve` (`views.py` lines 194-233): 404 from
`get_object`, availability conflict check, required-field validation,
serializer validation, then create + flag flip + audit entry. -/
def AccommodationViewSet.reserve (pk : Nat) (req : ReserveRequest) (s : State) :
    State × Except ApiError Reservation :=
  match s.findAccommodation pk with
  | none => (s, .error (.notFound "No Accommodation matches the given query."))
  | some accommodation =>
    if !accommodation.is_available then
      (s, .error (.badRequest "Accommodation not available"))
    else if !validate_required_fields req then
      (s, .error (.badRequest "Missing required fields"))
    else
      let mid := req.member_id.getD 0
      if reservationSerializerValid s mid then
        let reservation : Reservation :=
          { id := s.nextReservationId
            accommodation := accommodation.id
            member := mid
            reserved_from := req.reserved_from.getD 0
            reserved_to := req.reserved_to.getD 0
            contact_name := req.contact_name.getD ""
            contact_phone := req.contact_phone.getD ""
            status := "PENDING" }
        let s1 := { s with
          reservations := s.reservations ++ [reservation]
          nextReservationId := s.nextReservationId + 1 }
        let s2 := { s1 with accommodations :=
          setAccommodationAvailability s1.accommodations accommodation.id false }
        let s3 := { s2 with logs := s2.logs ++
          [createReservationLog mid accommodation.id reservation.id accommodation.name] }
        (s3, .ok reservation)
      else
        (s, .error (.badRequest "Invalid reservation data"))

/-! ### `AccommodationViewSet.destroy` -/

/-- The audit entry of `destroy`; the three creation sites of the source
differ only in the user fields (model defaults fill the rest). -/
def deleteAccommodationLog (s : State) (specialist_id : Option Nat) (name : String) :
    ActionLog :=
  match specialist_id with
  | some sid =>
    match s.findSpecialist sid with
    | some sp =>
      { action_type := "DELETE_ACCOMMODATION"
        user_type := "SPECIALIST"
        user_id := some sp.id
        details := "Deleted accommodation \x27" ++ name ++ "\x27" }
    | none =>
      { action_type := "DELETE_ACCOMMODATION"
        details := "Deleted accommodation \x27" ++ name ++ "\x27" }
  | none =>
    { action_type := "DELETE_ACCOMMODATION"
      details := "Deleted accommodation \x27" ++ name ++ "\x27" }

/-- `AccommodationViewSet.destroy` (`views.py` lines 269-300): refuses
while an active reservation exists; deletion cascades to reservations
and ratings of the accommodation (`on_delete=CASCADE`). -/
def AccommodationViewSet.destroy (pk : Nat) (specialist_id : Option Nat) (s : State) :
    State × Except ApiError Unit :=
  match s.findAccommodation pk with
  | none => (s, .error (.notFound "No Accommodation matches the given query."))
  | some accommodation =>
    let active_reservations := s.reservations.any (fun r =>
      r.accommodation == accommodation.id &&
      (r.status == "PENDING" || r.status == "CONFIRMED"))
    if active_reservations then
      (s, .error (.badRequest "Cannot delete accommodation with active reservations"))
    else
      let name := accommodation.name
      let s1 := { s with
        accommodations := s.accommodations.filter (fun a => !(a.id == pk))
        reservations := s.reservations.filter (fun r => !(r.accommodation == pk))
        ratings := s.ratings.filter (fun rt => !(rt.accommodation == pk)) }
      let s2 := { s1 with logs := s1.logs ++ [deleteAccommodationLog s specialist_id name] }
      (s2, .ok ())

/-! ### `ReservationViewSet.cancel` and `.update_status` -/

/-- The audit entry of a successful view-level cancel. -/
def cancelReservationLog (r : Reservation) : ActionLog :=
  { action_type := "CANCEL_RESERVATION"
    user_type := "MEMBER"
    user_id := some r.member
    accommodation_id := some r.accommodation
    reservation_id := some r.id
    details := "Reservation cancelled; status changed from " ++ r.status ++ " to CANCELLED" }

/-- `ReservationViewSet.cancel` (`views.py` lines 309-343): rejects only
when the current status is CONFIRMED; otherwise sets CANCELLED, re-opens
the accommodation and logs. -/
def ReservationViewSet.cancel (pk : Nat) (s : State) : State × Except ApiError Unit :=
  match s.findReservation pk with
  | none => (s, .error (.notFound "No Reservation matches the given query."))
  | some reservation =>
    if reservation.status == "CONFIRMED" then
      (s, .error (.badRequest "Cannot cancel a confirmed reservation"))
    else
      let s1 := { s with reservations := setReservationStatus s.reservations pk "CANCELLED" }
      let s2 := { s1 with accommodations :=
        setAccommodationAvailability s1.accommodations reservation.accommodation true }
      let s3 := { s2 with logs := s2.logs ++ [cancelReservationLog reservation] }
      (s3, .ok ())

/-- The audit entry of an accepted `update_status`, recording the old and
new status in its details. -/
def updateStatusLog (r : Reservation) (old_status new_status : String) : ActionLog :=
  { action_type := "UPDATE_RESERVATION_STATUS"
    user_type := "MEMBER"
    user_id := some r.member
    accommodation_id := some r.accommodation
    reservation_id := some r.id
    details := "Reservation status updated from " ++ old_status ++ " to " ++ new_status }

/-- The `elif` chain of `update_status` ("Additional logic based on
status change"): the CONFIRMED and COMPLETED arms are `pass`, the
CANCELLED arm re-opens the accommodation. -/
def updateStatusSideEffects (s1 : State) (accId : Nat) (old_status ns : String) :
    State :=
  if ns == "CONFIRMED" && old_status == "PENDING" then s1
  else if ns == "COMPLETED" && old_status != "COMPLETED" then s1
  else if ns == "CANCELLED" && old_status != "CANCELLED" then
    { s1 with accommodations := setAccommodationAvailability s1.accommodations accId true }
  else s1

/-- `ReservationViewSet.update_status` (`views.py` lines 345-388):
validates the status string against `STATUS_CHOICES`, saves the new
status, runs the `elif` side-effect chain (only the CANCELLED arm
mutates), and logs the old→new transition. -/
def ReservationViewSet.update_status (pk : Nat) (new_status : Option String)
    (s : State) : State × Except ApiError Reservation :=
  match s.findReservation pk with
  | none => (s, .error (.notFound "No Reservation matches the given query."))
  | some reservation =>
    let valid_statuses := ["PENDING", "CONFIRMED", "CANCELLED", "COMPLETED"]
    match new_status with
    | none => (s, .error (.badRequest "Invalid status value"))
    | some ns =>
      if !valid_statuses.contains ns then
        (s, .error (.badRequest "Invalid status value"))
      else
        let old_status := reservation.status
        let s1 := { s with reservations := setReservationStatus s.reservations pk ns }
        let s2 := updateStatusSideEffects s1 reservation.accommodation old_status ns
        let s3 := { s2 with logs := s2.logs ++ [updateStatusLog reservation old_status ns] }
        (s3, .ok { reservation with status := ns })

/-! ### `RatingViewSet.moderate` and rating creation -/

/-- `RatingViewSet.moderate` (`views.py` lines 427-485): 404 on a missing
rating or specialist, 400 on a missing specialist id, then stamps the
moderation fields and logs.  `now` stands for `timezone.now()`. -/
def RatingViewSet.moderate (pk : Nat) (specialist_id : Option Nat)
    (is_approved : Bool) (moderation_note : String) (now : Int) (s : State) :
    State × Except ApiError Unit :=
  match s.findRating pk with
  | none => (s, .error (.notFound "Rating not found"))
  | some rating =>
    match specialist_id with
    | none => (s, .error (.badRequest "Specialist ID is required"))
    | some sid =>
      match s.findSpecialist sid with
      | none => (s, .error (.notFound "Specialist not found"))
      | some specialist =>
        let s1 := { s with ratings := s.ratings.map (fun (rt : Rating) =>
          if rt.id == pk then
            { rt with
              is_approved := is_approved
              moderated_by := some specialist.id
              moderation_date := some now
              moderation_note := moderation_note }
          else rt) }
        let s2 := { s1 with logs := s1.logs ++
          [({ action_type := "MODERATE_RATING"
              user_type := "SPECIALIST"
              user_id := some specialist.id
              accommodation_id := some rating.accommodation
              rating_id := some rating.id
              details := (if is_approved then "Rating approved: " else "Rating rejected: ")
                ++ moderation_note } : ActionLog)] }
        (s2, .ok ())

/-- Modelled from the spec: the rating-creation endpoint (routing and
`RatingSerializer` are not under `src/`; `RatingViewSet` itself is
read-only).  Spec §4.4: creation is allowed only against an eligible
reservation (`can_be_rated`), the score is validated to the closed range
[0,5], and `is_approved` defaults to true at creation. -/
def createRating (reservationId : Nat) (score : Int) (s : State) :
    State × Except ApiError Rating :=
  match s.findReservation reservationId with
  | none => (s, .error (.notFound "Reservation not found"))
  | some r =>
    if !(r.can_be_rated s) then
      (s, .error (.badRequest "Reservation cannot be rated"))
    else if score < 0 || 5 < score then
      (s, .error (.badRequest "Score out of range"))
    else
      let rating : Rating :=
        { id := s.nextRatingId
          accommodation := r.accommodation
          member := r.member
          reservation := r.id
          score := score
          is_approved := true
          moderated_by := none
          moderation_date := none
          moderation_note := "" }
      ({ s with
          ratings := s.ratings ++ [rating]
          nextRatingId := s.nextRatingId + 1
          logs := s.logs ++
            [({ action_type := "CREATE_RATING"
                user_type := "MEMBER"
                user_id := some r.member
                accommodation_id := some r.accommodation
                rating_id := some s.nextRatingId } : ActionLog)] },
        .ok rating)

/-! ### `Accommodation.calculate_distance` (`models.py` lines 202-220) -/

/-- `math.radians`: degrees to radians. -/
noncomputable def radians (deg : ℝ) : ℝ := deg * Real.pi / 180

/-- `Accommodation.calculate_distance`, embedded over the reals: the
equirectangular approximation with Earth radius 6371.0 km, applied to
`(self.latitude, self.longitude)` and `(campus.latitude, campus.longitude)`. -/
noncomputable def calculate_distance (lat1 lon1 lat2 lon2 : ℝ) : ℝ :=
  let R : ℝ := 6371.0
  let lat1r := radians lat1
  let lon1r := radians lon1
  let lat2r := radians lat2
  let lon2r := radians lon2
  let x := (lon2r - lon1r) * Real.cos ((lat1r + lat2r) / 2)
  let y := lat2r - lat1r
  R * Real.sqrt (x * x + y * y)

/-- The distance formula exactly as the spec words it: convert to
radians, `x = (lon2-lon1)·cos((lat1+lat2)/2)`, `y = (lat2-lat1)`,
`distance = R·sqrt(x²+y²)` with `R = 6371.0`. -/
noncomputable def specDistanceFormula (lat1 lon1 lat2 lon2 : ℝ) : ℝ :=
  6371.0 * Real.sqrt
    (((radians lon2 - radians lon1) * Real.cos ((radians lat1 + radians lat2) / 2)) ^ 2
      + (radians lat2 - radians lat1) ^ 2)

/-! ### Lemmas about the list helpers -/

theorem mem_insertByKey {α β : Type} [LinearOrder β] {key : α → β} {a x : α}
    {l : List α} : x ∈ insertByKey key a l ↔ x = a ∨ x ∈ l := by
  induction l with
  | nil => simp [insertByKey]
  | cons b t ih =>
    simp only [insertByKey]
    split
    · simp
    · simp only [List.mem_cons, ih]
      tauto

theorem mem_sortByKey {α β : Type} [LinearOrder β] {key : α → β} {x : α}
    {l : List α} : x ∈ sortByKey key l ↔ x ∈ l := by
  induction l with
  | nil => simp [sortByKey]
  | cons a t ih => simp [sortByKey, mem_insertByKey, ih]

theorem pairwise_insertByKey {α β : Type} [LinearOrder β] {key : α → β} {a : α}
    {l : List α} (h : l.Pairwise (fun x y => key x ≤ key y)) :
    (insertByKey key a l).Pairwise (fun x y => key x ≤ key y) := by
  induction l with
  | nil => simp [insertByKey]
  | cons b t ih =>
    simp only [insertByKey]
    rcases List.pairwise_cons.mp h with ⟨hb, ht⟩
    split
    · rename_i hab
      refine List.pairwise_cons.mpr ⟨?_, h⟩
      intro x hx
      rcases List.mem_cons.mp hx with rfl | hx
      · exact hab
      · exact le_trans hab (hb x hx)
    · rename_i hab
      refine List.pairwise_cons.mpr ⟨?_, ih ht⟩
      intro x hx
      rcases mem_insertByKey.mp hx with rfl | hx
      · exact le_of_not_le hab
      · exact hb x hx

theorem pairwise_sortByKey {α β : Type} [LinearOrder β] {key : α → β}
    {l : List α} : (sortByKey key l).Pairwise (fun x y => key x ≤ key y) := by
  induction l with
  | nil => simp [sortByKey]
  | cons a t ih => exact pairwise_insertByKey ih

theorem mem_optFilter {α β : Type} {o : Option β} {pred : β → α → Bool} {x : α}
    {l : List α} :
    x ∈ optFilter o pred l ↔ x ∈ l ∧ ∀ v, o = some v → pred v x = true := by
  cases o with
  | none => simp [optFilter]
  | some v => simp [optFilter, List.mem_filter]

theorem mem_applyFilters {p : SearchParams} {a : Accommodation}
    {l : List Accommodation} :
    a ∈ applyFilters p l ↔ a ∈ l ∧
      (∀ t, p.type = some t → a.type = t) ∧
      (∀ v, p.available_from = some v → a.available_from ≤ v) ∧
      (∀ v, p.available_to = some v → v ≤ a.available_to) ∧
      (∀ v, p.num_beds = some v → v ≤ a.num_beds) ∧
      (∀ v, p.num_bedrooms = some v → v ≤ a.num_bedrooms) ∧
      (∀ v, p.min_price = some v → v ≤ a.monthly_rent) ∧
      (∀ v, p.max_price = some v → a.monthly_rent ≤ v) := by
  simp only [applyFilters, mem_optFilter, decide_eq_true_eq, beq_iff_eq]
  tauto

theorem mem_excludeOverlapping {p : SearchParams} {s : State} {a : Accommodation}
    {l : List Accommodation} :
    a ∈ excludeOverlapping p s l ↔ a ∈ l ∧
      (∀ f t, p.available_from = some f → p.available_to = some t →
        hasOverlappingReservation s f t a = false) := by
  unfold excludeOverlapping
  cases hf : p.available_from with
  | none => simp
  | some f =>
    cases ht : p.available_to with
    | none => simp
    | some t =>
      simp [List.mem_filter]

theorem mem_searchQueryset {p : SearchParams} {s : State} {member : Member}
    {a : Accommodation} :
    a ∈ searchQueryset p s member ↔
      a ∈ s.accommodations ∧
      member.university ∈ a.universities ∧
      a.is_available = true ∧
      (∀ t, p.type = some t → a.type = t) ∧
      (∀ v, p.available_from = some v → a.available_from ≤ v) ∧
      (∀ v, p.available_to = some v → v ≤ a.available_to) ∧
      (∀ v, p.num_beds = some v → v ≤ a.num_beds) ∧
      (∀ v, p.num_bedrooms = some v → v ≤ a.num_bedrooms) ∧
      (∀ v, p.min_price = some v → v ≤ a.monthly_rent) ∧
      (∀ v, p.max_price = some v → a.monthly_rent ≤ v) ∧
      (∀ f t, p.available_from = some f → p.available_to = some t →
        hasOverlappingReservation s f t a = false) := by
  unfold searchQueryset
  rw [mem_excludeOverlapping, mem_applyFilters]
  simp only [List.mem_filter, Bool.and_eq_true, List.any_eq_true, beq_iff_eq]
  constructor
  · rintro ⟨⟨⟨ha, ⟨u, hu, rfl⟩, hav⟩, hfs⟩, hov⟩
    exact ⟨ha, hu, hav, hfs.1, hfs.2.1, hfs.2.2.1, hfs.2.2.2.1, hfs.2.2.2.2.1,
      hfs.2.2.2.2.2.1, hfs.2.2.2.2.2.2, hov⟩
  · rintro ⟨ha, hu, hav, h1, h2, h3, h4, h5, h6, h7, hov⟩
    exact ⟨⟨⟨ha, ⟨member.university, hu, rfl⟩, hav⟩, h1, h2, h3, h4, h5, h6, h7⟩, hov⟩

/-- Membership characterization of a successful search: an accommodation
appears (with some annotation) in the response iff it belongs to the
filtered queryset. -/
theorem mem_search_ok {p : SearchParams} {dist : Accommodation → Campus → Rat}
    {s : State} {mid : Nat} {member : Member} {l : List SearchRow}
    {a : Accommodation}
    (hmid : p.member_id = some mid)
    (hmem : s.findMember mid = some member)
    (hok : AccommodationViewSet.search p dist s = .ok l) :
    (∃ d, (a, d) ∈ l) ↔ a ∈ searchQueryset p s member := by
  unfold AccommodationViewSet.search at hok
  rw [hmid] at hok
  simp only [hmem] at hok
  by_cases h1 : p.sort_by = "price_asc"
  · simp only [h1, beq_self_eq_true, if_true] at hok
    cases hok
    simp only [List.mem_map, mem_sortByKey, Prod.ext_iff]
    exact ⟨fun hd => by rcases hd with ⟨d, a1, h1, rfl, rfl⟩; exact h1,
      fun h => ⟨none, a, h, rfl, rfl⟩⟩
  · simp only [beq_iff_eq, h1, if_false] at hok
    by_cases h2 : p.sort_by = "price_desc"
    · simp only [h2, beq_self_eq_true, if_true] at hok
      cases hok
      simp only [List.mem_map, mem_sortByKey, Prod.ext_iff]
      exact ⟨fun hd => by rcases hd with ⟨d, a1, h1, rfl, rfl⟩; exact h1,
        fun h => ⟨none, a, h, rfl, rfl⟩⟩
    · simp only [h2, if_false] at hok
      cases hcid : p.campus_id with
      | none =>
        simp only [hcid] at hok
        cases hok
        simp only [List.mem_map, Prod.ext_iff]
        exact ⟨fun hd => by rcases hd with ⟨d, a1, h1, rfl, rfl⟩; exact h1,
          fun h => ⟨none, a, h, rfl, rfl⟩⟩
      | some cid =>
        simp only [hcid] at hok
        cases hcampus : s.findCampus cid with
        | none => simp only [hcampus] at hok; cases hok
        | some campus =>
          simp only [hcampus] at hok
          cases hok
          constructor
          · rintro ⟨d, hd⟩
            rcases List.mem_map.mp hd with ⟨x, hx, hxa⟩
            have hx2 := mem_sortByKey.mp hx
            rcases List.mem_map.mp hx2 with ⟨b, hb, hbx⟩
            have hba : b = a := by
              have h3 : x.1 = a := congrArg Prod.fst hxa
              have h4 : b = x.1 := (congrArg Prod.fst hbx).symm ▸ rfl
              rw [← hbx] at h3
              exact h3
            exact hba ▸ hb
          · intro ha
            refine ⟨some (dist a campus), List.mem_map.mpr
              ⟨(a, dist a campus), ?_, rfl⟩⟩
            exact mem_sortByKey.mpr (List.mem_map.mpr ⟨a, ha, rfl⟩)

theorem avail_of_mem_setAccommodationAvailability {l : List Accommodation}
    {pk : Nat} {b : Bool} {a : Accommodation}
    (h : a ∈ setAccommodationAvailability l pk b) (hid : a.id = pk) :
    a.is_available = b := by
  rcases List.mem_map.mp h with ⟨a0, _, rfl⟩
  by_cases h0 : a0.id = pk
  · simp [h0]
  · exfalso
    simp only [beq_iff_eq, h0, if_false] at hid

theorem status_of_mem_setReservationStatus {l : List Reservation}
    {pk : Nat} {st : String} {r : Reservation}
    (h : r ∈ setReservationStatus l pk st) (hid : r.id = pk) :
    r.status = st := by
  rcases List.mem_map.mp h with ⟨r0, _, rfl⟩
  by_cases h0 : r0.id = pk
  · simp [h0]
  · exfalso
    simp only [beq_iff_eq, h0, if_false] at hid

/-! ## Distance-calculator facts -/

theorem calculate_distance_eq_spec (lat1 lon1 lat2 lon2 : ℝ) :
    calculate_distance lat1 lon1 lat2 lon2 = specDistanceFormula lat1 lon1 lat2 lon2 := by
  unfold calculate_distance specDistanceFormula
  ring_nf

theorem calculate_distance_nonneg (lat1 lon1 lat2 lon2 : ℝ) :
    0 ≤ calculate_distance lat1 lon1 lat2 lon2 := by
  unfold calculate_distance
  positivity

theorem calculate_distance_self (lat lon : ℝ) :
    calculate_distance lat lon lat lon = 0 := by
  simp [calculate_distance]

/-! ## Concrete fixtures used by the witnesses -/

def exMember : Member := { id := 1, university := 1 }

def exSpecialist : Specialist := { id := 1, university := 1 }

def exCampus : Campus := { id := 1 }

def exAcc : Accommodation :=
  { id := 1, name := "A Building", type := "APARTMENT", num_bedrooms := 2,
    num_beds := 4, available_from := 0, available_to := 365,
    monthly_rent := 5000, is_available := true, universities := [1] }

def exAccUnavailable : Accommodation := { exAcc with is_available := false }

def exResPending : Reservation :=
  { id := 1, accommodation := 1, member := 1, reserved_from := 10,
    reserved_to := 20, contact_name := "Peter", contact_phone := "12345678",
    status := "PENDING" }

def exResConfirmed : Reservation := { exResPending with status := "CONFIRMED" }

def exResCompleted : Reservation := { exResPending with status := "COMPLETED" }

/-- State holding a COMPLETED reservation on an unavailable accommodation. -/
def stCompleted : State :=
  { accommodations := [exAccUnavailable], reservations := [exResCompleted],
    members := [exMember], nextReservationId := 2 }

/-- State holding a CONFIRMED reservation on an unavailable accommodation. -/
def stConfirmed : State :=
  { accommodations := [exAccUnavailable], reservations := [exResConfirmed],
    members := [exMember], nextReservationId := 2 }

/-- State holding a PENDING reservation on an unavailable accommodation. -/
def stPending : State :=
  { accommodations := [exAccUnavailable], reservations := [exResPending],
    members := [exMember], nextReservationId := 2 }

/-! ## C5 — the distance calculator -/

/-- C5: for every pair of coordinate pairs, the distance calculator
returns `R·sqrt(x²+y²)` with `R = 6371.0`,
`x = (lon2-lon1)·cos((lat1+lat2)/2)` and `y = (lat2-lat1)` after
converting all four inputs from degrees to radians; consequently the
result is always nonnegative, and it is zero on identical points. -/
theorem claim_C5 (lat1 lon1 lat2 lon2 : ℝ) :
    calculate_distance lat1 lon1 lat2 lon2 = specDistanceFormula lat1 lon1 lat2 lon2 ∧
    0 ≤ calculate_distance lat1 lon1 lat2 lon2 ∧
    calculate_distance lat1 lon1 lat1 lon1 = 0 :=
  ⟨calculate_distance_eq_spec lat1 lon1 lat2 lon2,
   calculate_distance_nonneg lat1 lon1 lat2 lon2,
   calculate_distance_self lat1 lon1⟩

/-! ## C9 — the model-level `Reservation.cancel` always returns False -/

/-- C9: the model-level `Reservation.cancel` method returns `False` for
every reservation — even when the reservation is PENDING and the method
does set its status to CANCELLED and flip the accommodation's
`is_available` to true — so callers can never distinguish success from
failure by the return value. -/
theorem claim_C9 (r : Reservation) (s : State) :
    (Reservation.cancel r s).2 = false ∧
    (r.status = "PENDING" →
      (∀ r2 ∈ (Reservation.cancel r s).1.reservations,
        r2.id = r.id → r2.status = "CANCELLED") ∧
      (∀ a ∈ (Reservation.cancel r s).1.accommodations,
        a.id = r.accommodation → a.is_available = true)) := by
  constructor
  · unfold Reservation.cancel
    split <;> rfl
  · intro hp
    have hc : r.can_be_cancelled = true := by
      simp [Reservation.can_be_cancelled, hp]
    unfold Reservation.cancel
    rw [hc]
    simp only [if_true]
    exact ⟨fun r2 h2 hid => status_of_mem_setReservationStatus h2 hid,
      fun a ha hid => avail_of_mem_setAccommodationAvailability ha hid⟩

/-- Witness for C9: cancelling the concrete PENDING reservation returns
`false` while performing both side effects. -/
theorem claim_C9_witness :
    (Reservation.cancel exResPending stPending).2 = false ∧
    (∀ r2 ∈ (Reservation.cancel exResPending stPending).1.reservations,
      r2.id = exResPending.id → r2.status = "CANCELLED") ∧
    (∀ a ∈ (Reservation.cancel exResPending stPending).1.accommodations,
      a.id = exResPending.accommodation → a.is_available = true) :=
  ⟨(claim_C9 exResPending stPending).1,
   ((claim_C9 exResPending stPending).2 rfl).1,
   ((claim_C9 exResPending stPending).2 rfl).2⟩

/-! ## C1 — view-level cancel: gate and side effects -/

/-- Counterexample to C1 as stated: the view-level cancel succeeds on a
COMPLETED reservation, so cancel is not allowed only from PENDING. -/
theorem claim_C1_counterexample :
    stCompleted.findReservation 1 = some exResCompleted ∧
    exResCompleted.status = "COMPLETED" ∧
    (ReservationViewSet.cancel 1 stCompleted).2 = .ok () := by
  refine ⟨rfl, rfl, rfl⟩

/-- C1 (amended): the view-level cancel is rejected exactly when the
reservation is CONFIRMED — a conflict error with all state unchanged;
from any other status (not only PENDING) it succeeds, setting the status
to CANCELLED, flipping the accommodation's `is_available` to true, and
appending exactly one audit entry. -/
theorem claim_C1 (pk : Nat) (s : State) (r : Reservation)
    (hfind : s.findReservation pk = some r) :
    (r.status = "CONFIRMED" →
      ReservationViewSet.cancel pk s =
        (s, .error (.badRequest "Cannot cancel a confirmed reservation"))) ∧
    (r.status ≠ "CONFIRMED" →
      (ReservationViewSet.cancel pk s).2 = .ok () ∧
      (∀ r2 ∈ (ReservationViewSet.cancel pk s).1.reservations,
        r2.id = pk → r2.status = "CANCELLED") ∧
      (∀ a ∈ (ReservationViewSet.cancel pk s).1.accommodations,
        a.id = r.accommodation → a.is_available = true) ∧
      (ReservationViewSet.cancel pk s).1.logs = s.logs ++ [cancelReservationLog r]) := by
  constructor
  · intro hc
    unfold ReservationViewSet.cancel
    rw [hfind]
    simp [hc]
  · intro hc
    unfold ReservationViewSet.cancel
    rw [hfind]
    have hb : (r.status == "CONFIRMED") = false := by
      simp [hc]
    simp only [hb, Bool.false_eq_true, if_false]
    refine ⟨?_, fun r2 h2 hid => status_of_mem_setReservationStatus h2 hid,
      fun a ha hid => avail_of_mem_setAccommodationAvailability ha hid, ?_⟩ <;> trivial

/-- Witness for C1 (amended): the CONFIRMED rejection and a successful
PENDING cancellation, both at concrete states. -/
theorem claim_C1_witness :
    (ReservationViewSet.cancel 1 stConfirmed =
      (stConfirmed, .error (.badRequest "Cannot cancel a confirmed reservation"))) ∧
    ((ReservationViewSet.cancel 1 stPending).2 = .ok () ∧
      (∀ r2 ∈ (ReservationViewSet.cancel 1 stPending).1.reservations,
        r2.id = 1 → r2.status = "CANCELLED") ∧
      (∀ a ∈ (ReservationViewSet.cancel 1 stPending).1.accommodations,
        a.id = exResPending.accommodation → a.is_available = true) ∧
      (ReservationViewSet.cancel 1 stPending).1.logs =
        stPending.logs ++ [cancelReservationLog exResPending]) :=
  ⟨(claim_C1 1 stConfirmed exResConfirmed rfl).1 rfl,
   (claim_C1 1 stPending exResPending rfl).2 (by decide)⟩

/-! ## C2 — reserve: conflict gate and success effects -/

theorem findAccommodation_spec {s : State} {pk : Nat} {a : Accommodation}
    (h : s.findAccommodation pk = some a) : a.id = pk ∧ a ∈ s.accommodations := by
  unfold State.findAccommodation at h
  exact ⟨by simpa using List.find?_some h, List.mem_of_find?_eq_some h⟩

/-- State with one available accommodation and one member, no reservations. -/
def stAvail : State := { accommodations := [exAcc], members := [exMember] }

/-- State with one unavailable accommodation and one member. -/
def stUnavail : State := { accommodations := [exAccUnavailable], members := [exMember] }

/-- A fully populated reserve request from the fixture member. -/
def exReq : ReserveRequest :=
  { member_id := some 1, reserved_from := some 10, reserved_to := some 20,
    contact_name := some "Peter", contact_phone := some "12345678" }

/-- C2: reserving an accommodation whose `is_available` is false fails
with the conflict error regardless of the other inputs; every successful
reserve leaves the accommodation unavailable, creates the reservation in
status PENDING, and appends exactly one CREATE_RESERVATION audit entry. -/
theorem claim_C2 (pk : Nat) (req : ReserveRequest) (s : State) :
    (∀ acc, s.findAccommodation pk = some acc → acc.is_available = false →
      AccommodationViewSet.reserve pk req s =
        (s, .error (.badRequest "Accommodation not available"))) ∧
    (∀ r, (AccommodationViewSet.reserve pk req s).2 = .ok r →
      r.status = "PENDING" ∧
      (∀ a ∈ (AccommodationViewSet.reserve pk req s).1.accommodations,
        a.id = pk → a.is_available = false) ∧
      ∃ e, (AccommodationViewSet.reserve pk req s).1.logs = s.logs ++ [e] ∧
        e.action_type = "CREATE_RESERVATION") := by
  constructor
  · intro acc hf hav
    unfold AccommodationViewSet.reserve
    rw [hf]
    simp [hav]
  · unfold AccommodationViewSet.reserve
    cases hf : s.findAccommodation pk with
    | none =>
      intro r h
      simp at h
    | some acc =>
      have hacc : acc.id = pk := (findAccommodation_spec hf).1
      by_cases hav : acc.is_available = true
      · by_cases hval : validate_required_fields req = true
        · by_cases hser : reservationSerializerValid s (req.member_id.getD 0) = true
          · simp only [hav, hval, hser, Bool.not_true, Bool.false_eq_true, if_false,
              if_true, ite_true, ite_false]
            intro r h
            simp only [Except.ok.injEq] at h
            subst h
            refine ⟨rfl, ?_, ?_⟩
            · intro a ha hid
              exact avail_of_mem_setAccommodationAvailability ha (hid.trans hacc.symm)
            · exact ⟨createReservationLog (req.member_id.getD 0) acc.id
                s.nextReservationId acc.name, rfl, rfl⟩
          · simp only [hav, hval, hser, Bool.not_true, Bool.false_eq_true, if_false,
              if_true, ite_true, ite_false]
            intro r h
            simp at h
        · simp only [hav, hval]
          intro r h
          simp at h
      · simp only [hav]
        intro r h
        simp at h

/-- Witness for C2: the conflict rejection on the unavailable fixture and
a successful reserve on the available one. -/
theorem claim_C2_witness :
    (AccommodationViewSet.reserve 1 exReq stUnavail =
      (stUnavail, .error (.badRequest "Accommodation not available"))) ∧
    (exResPending.status = "PENDING" ∧
      (∀ a ∈ (AccommodationViewSet.reserve 1 exReq stAvail).1.accommodations,
        a.id = 1 → a.is_available = false) ∧
      ∃ e, (AccommodationViewSet.reserve 1 exReq stAvail).1.logs = stAvail.logs ++ [e] ∧
        e.action_type = "CREATE_RESERVATION") :=
  ⟨(claim_C2 1 exReq stUnavail).1 exAccUnavailable rfl rfl,
   (claim_C2 1 exReq stAvail).2 exResPending rfl⟩

/-! ## C6 — update_status: validation gate and per-status side effects -/

theorem findReservation_spec {s : State} {pk : Nat} {r : Reservation}
    (h : s.findReservation pk = some r) : r.id = pk ∧ r ∈ s.reservations := by
  unfold State.findReservation at h
  exact ⟨by simpa using List.find?_some h, List.mem_of_find?_eq_some h⟩

theorem updateStatusSideEffects_logs (s1 : State) (accId : Nat)
    (old_status ns : String) :
    (updateStatusSideEffects s1 accId old_status ns).logs = s1.logs := by
  unfold updateStatusSideEffects
  split
  · rfl
  · split
    · rfl
    · split
      · rfl
      · rfl

theorem updateStatusSideEffects_cancelled (s1 : State) (accId : Nat)
    (old_status : String) (hold : old_status ≠ "CANCELLED") :
    updateStatusSideEffects s1 accId old_status "CANCELLED" =
      { s1 with accommodations := setAccommodationAvailability s1.accommodations accId true } := by
  unfold updateStatusSideEffects
  have h3 : (old_status != "CANCELLED") = true := by simp [bne, hold]
  simp [h3]

theorem updateStatusSideEffects_confirmed (s1 : State) (accId : Nat)
    (old_status : String) :
    updateStatusSideEffects s1 accId old_status "CONFIRMED" = s1 := by
  unfold updateStatusSideEffects
  by_cases hp : (old_status == "PENDING") = true <;> simp [hp]

/-- Characterization of an accepted `update_status` call. -/
theorem update_status_ok {pk : Nat} {s : State} {r : Reservation} {v : String}
    (hfind : s.findReservation pk = some r)
    (hv : ((["PENDING", "CONFIRMED", "CANCELLED", "COMPLETED"] : List String).contains v) = true) :
    ReservationViewSet.update_status pk (some v) s =
      ({ updateStatusSideEffects
            { s with reservations := setReservationStatus s.reservations pk v }
            r.accommodation r.status v with
          logs := (updateStatusSideEffects
            { s with reservations := setReservationStatus s.reservations pk v }
            r.accommodation r.status v).logs ++ [updateStatusLog r r.status v] },
       .ok { r with status := v }) := by
  unfold ReservationViewSet.update_status
  rw [hfind]
  simp only [hv, Bool.not_true, Bool.false_eq_true, if_false]

/-- C6: `update_status` rejects a missing status or one outside the four
`STATUS_CHOICES` values with a validation error and no state change; for
every accepted value the reservation takes the new status and an audit
entry recording the old and new status is appended; entering CANCELLED
(from a different status) re-opens the accommodation, while CONFIRMED
changes nothing beyond the reservation's status (plus the audit entry). -/
theorem claim_C6 (pk : Nat) (ns : Option String) (s : State) (r : Reservation)
    (hfind : s.findReservation pk = some r) :
    ((ns = none ∨ ∃ v, ns = some v ∧
        v ∉ (["PENDING", "CONFIRMED", "CANCELLED", "COMPLETED"] : List String)) →
      ReservationViewSet.update_status pk ns s =
        (s, .error (.badRequest "Invalid status value"))) ∧
    (∀ v, ns = some v →
      v ∈ (["PENDING", "CONFIRMED", "CANCELLED", "COMPLETED"] : List String) →
      (ReservationViewSet.update_status pk ns s).2 = .ok { r with status := v } ∧
      (ReservationViewSet.update_status pk ns s).1.logs =
        s.logs ++ [updateStatusLog r r.status v] ∧
      (v = "CANCELLED" → r.status ≠ "CANCELLED" →
        ∀ a ∈ (ReservationViewSet.update_status pk ns s).1.accommodations,
          a.id = r.accommodation → a.is_available = true) ∧
      (v = "CONFIRMED" →
        (ReservationViewSet.update_status pk ns s).1.accommodations = s.accommodations ∧
        (ReservationViewSet.update_status pk ns s).1.ratings = s.ratings ∧
        (ReservationViewSet.update_status pk ns s).1.reservations =
          setReservationStatus s.reservations pk v)) := by
  constructor
  · rintro (rfl | ⟨v, rfl, hv⟩)
    · unfold ReservationViewSet.update_status
      rw [hfind]
    · have hv4 : ¬v = "PENDING" ∧ ¬v = "CONFIRMED" ∧ ¬v = "CANCELLED" ∧
          ¬v = "COMPLETED" := by
        simpa using hv
      unfold ReservationViewSet.update_status
      rw [hfind]
      simp [hv4.1, hv4.2.1, hv4.2.2.1, hv4.2.2.2]
  · rintro v rfl hv
    have hc : ((["PENDING", "CONFIRMED", "CANCELLED", "COMPLETED"] : List String).contains v) = true :=
      List.elem_iff.mpr hv
    rw [update_status_ok hfind hc]
    refine ⟨rfl, ?_, ?_, ?_⟩
    · show (updateStatusSideEffects _ _ _ _).logs ++ _ = _
      rw [updateStatusSideEffects_logs]
    · rintro rfl hna
      rw [updateStatusSideEffects_cancelled _ _ _ hna]
      intro a ha hid
      exact avail_of_mem_setAccommodationAvailability ha hid
    · rintro rfl
      rw [updateStatusSideEffects_confirmed]
      exact ⟨rfl, rfl, rfl⟩

/-- Witness for C6: the invalid-status rejection and the CANCELLED and
CONFIRMED transitions, exercised on the PENDING fixture. -/
theorem claim_C6_witness :
    (ReservationViewSet.update_status 1 (some "INVALID") stPending =
      (stPending, .error (.badRequest "Invalid status value"))) ∧
    ((ReservationViewSet.update_status 1 (some "CANCELLED") stPending).2 =
        .ok { exResPending with status := "CANCELLED" } ∧
      (ReservationViewSet.update_status 1 (some "CANCELLED") stPending).1.logs =
        stPending.logs ++ [updateStatusLog exResPending exResPending.status "CANCELLED"] ∧
      (∀ a ∈ (ReservationViewSet.update_status 1 (some "CANCELLED") stPending).1.accommodations,
        a.id = exResPending.accommodation → a.is_available = true)) ∧
    ((ReservationViewSet.update_status 1 (some "CONFIRMED") stPending).1.accommodations =
        stPending.accommodations ∧
      (ReservationViewSet.update_status 1 (some "CONFIRMED") stPending).1.reservations =
        setReservationStatus stPending.reservations 1 "CONFIRMED") :=
  ⟨(claim_C6 1 (some "INVALID") stPending exResPending rfl).1
      (Or.inr ⟨"INVALID", rfl, by decide⟩),
   ⟨((claim_C6 1 (some "CANCELLED") stPending exResPending rfl).2 "CANCELLED" rfl
        (by decide)).1,
    ((claim_C6 1 (some "CANCELLED") stPending exResPending rfl).2 "CANCELLED" rfl
        (by decide)).2.1,
    ((claim_C6 1 (some "CANCELLED") stPending exResPending rfl).2 "CANCELLED" rfl
        (by decide)).2.2.1 rfl (by decide)⟩,
   ⟨(((claim_C6 1 (some "CONFIRMED") stPending exResPending rfl).2 "CONFIRMED" rfl
        (by decide)).2.2.2 rfl).1,
    (((claim_C6 1 (some "CONFIRMED") stPending exResPending rfl).2 "CONFIRMED" rfl
        (by decide)).2.2.2 rfl).2.2⟩⟩

/-! ## C7 — rejected calls leave the state untouched -/

theorem reserve_state_or_ok (pk : Nat) (req : ReserveRequest) (s : State) :
    (AccommodationViewSet.reserve pk req s).1 = s ∨
    ∃ r, (AccommodationViewSet.reserve pk req s).2 = .ok r := by
  unfold AccommodationViewSet.reserve
  dsimp only
  split
  · exact Or.inl rfl
  · split
    · exact Or.inl rfl
    · split
      · exact Or.inl rfl
      · split
        · exact Or.inr ⟨_, rfl⟩
        · exact Or.inl rfl

theorem reserve_error_unchanged (pk : Nat) (req : ReserveRequest) (s : State)
    (e : ApiError) (h : (AccommodationViewSet.reserve pk req s).2 = .error e) :
    (AccommodationViewSet.reserve pk req s).1 = s := by
  rcases reserve_state_or_ok pk req s with hk | ⟨r, hk⟩
  · exact hk
  · rw [h] at hk
    cases hk

theorem cancel_state_or_ok (pk : Nat) (s : State) :
    (ReservationViewSet.cancel pk s).1 = s ∨
    ∃ u, (ReservationViewSet.cancel pk s).2 = .ok u := by
  unfold ReservationViewSet.cancel
  dsimp only
  split
  · exact Or.inl rfl
  · split
    · exact Or.inl rfl
    · exact Or.inr ⟨(), rfl⟩

theorem cancel_error_unchanged (pk : Nat) (s : State) (e : ApiError)
    (h : (ReservationViewSet.cancel pk s).2 = .error e) :
    (ReservationViewSet.cancel pk s).1 = s := by
  rcases cancel_state_or_ok pk s with hk | ⟨u, hk⟩
  · exact hk
  · rw [h] at hk
    cases hk

theorem update_status_state_or_ok (pk : Nat) (ns : Option String) (s : State) :
    (ReservationViewSet.update_status pk ns s).1 = s ∨
    ∃ r, (ReservationViewSet.update_status pk ns s).2 = .ok r := by
  unfold ReservationViewSet.update_status
  dsimp only
  split
  · exact Or.inl rfl
  · split
    · exact Or.inl rfl
    · split
      · exact Or.inl rfl
      · exact Or.inr ⟨_, rfl⟩

theorem update_status_error_unchanged (pk : Nat) (ns : Option String) (s : State)
    (e : ApiError) (h : (ReservationViewSet.update_status pk ns s).2 = .error e) :
    (ReservationViewSet.update_status pk ns s).1 = s := by
  rcases update_status_state_or_ok pk ns s with hk | ⟨r, hk⟩
  · exact hk
  · rw [h] at hk
    cases hk

theorem destroy_state_or_ok (pk : Nat) (sid : Option Nat) (s : State) :
    (AccommodationViewSet.destroy pk sid s).1 = s ∨
    ∃ u, (AccommodationViewSet.destroy pk sid s).2 = .ok u := by
  unfold AccommodationViewSet.destroy
  dsimp only
  split
  · exact Or.inl rfl
  · split
    · exact Or.inl rfl
    · exact Or.inr ⟨(), rfl⟩

theorem destroy_error_unchanged (pk : Nat) (sid : Option Nat) (s : State)
    (e : ApiError) (h : (AccommodationViewSet.destroy pk sid s).2 = .error e) :
    (AccommodationViewSet.destroy pk sid s).1 = s := by
  rcases destroy_state_or_ok pk sid s with hk | ⟨u, hk⟩
  · exact hk
  · rw [h] at hk
    cases hk

theorem moderate_state_or_ok (pk : Nat) (sid : Option Nat) (ap : Bool)
    (note : String) (now : Int) (s : State) :
    (RatingViewSet.moderate pk sid ap note now s).1 = s ∨
    ∃ u, (RatingViewSet.moderate pk sid ap note now s).2 = .ok u := by
  unfold RatingViewSet.moderate
  dsimp only
  split
  · exact Or.inl rfl
  · split
    · exact Or.inl rfl
    · split
      · exact Or.inl rfl
      · exact Or.inr ⟨(), rfl⟩

theorem moderate_error_unchanged (pk : Nat) (sid : Option Nat) (ap : Bool)
    (note : String) (now : Int) (s : State) (e : ApiError)
    (h : (RatingViewSet.moderate pk sid ap note now s).2 = .error e) :
    (RatingViewSet.moderate pk sid ap note now s).1 = s := by
  rcases moderate_state_or_ok pk sid ap note now s with hk | ⟨u, hk⟩
  · exact hk
  · rw [h] at hk
    cases hk

/-- C7: whenever reserve, cancel, update-status, destroy, or moderate
returns a validation, not-found, or conflict error, the state after the
call equals the state before it — no record is modified and no audit
entry is created. -/
theorem claim_C7 (s : State) :
    (∀ pk req e, (AccommodationViewSet.reserve pk req s).2 = .error e →
      (AccommodationViewSet.reserve pk req s).1 = s) ∧
    (∀ pk e, (ReservationViewSet.cancel pk s).2 = .error e →
      (ReservationViewSet.cancel pk s).1 = s) ∧
    (∀ pk ns e, (ReservationViewSet.update_status pk ns s).2 = .error e →
      (ReservationViewSet.update_status pk ns s).1 = s) ∧
    (∀ pk sid e, (AccommodationViewSet.destroy pk sid s).2 = .error e →
      (AccommodationViewSet.destroy pk sid s).1 = s) ∧
    (∀ pk sid ap note now e, (RatingViewSet.moderate pk sid ap note now s).2 = .error e →
      (RatingViewSet.moderate pk sid ap note now s).1 = s) :=
  ⟨fun pk req e h => reserve_error_unchanged pk req s e h,
   fun pk e h => cancel_error_unchanged pk s e h,
   fun pk ns e h => update_status_error_unchanged pk ns s e h,
   fun pk sid e h => destroy_error_unchanged pk sid s e h,
   fun pk sid ap note now e h => moderate_error_unchanged pk sid ap note now s e h⟩

/-- Witness for C7: one rejected call of each operation on concrete
states, each leaving the state intact. -/
theorem claim_C7_witness :
    (AccommodationViewSet.reserve 1 exReq stUnavail).1 = stUnavail ∧
    (ReservationViewSet.cancel 1 stConfirmed).1 = stConfirmed ∧
    (ReservationViewSet.update_status 1 (some "INVALID") stPending).1 = stPending ∧
    (AccommodationViewSet.destroy 1 none stPending).1 = stPending ∧
    (RatingViewSet.moderate 1 (some 1) true "" 0 stPending).1 = stPending :=
  ⟨(claim_C7 stUnavail).1 1 exReq (.badRequest "Accommodation not available") rfl,
   (claim_C7 stConfirmed).2.1 1 (.badRequest "Cannot cancel a confirmed reservation") rfl,
   (claim_C7 stPending).2.2.1 1 (some "INVALID") (.badRequest "Invalid status value") rfl,
   (claim_C7 stPending).2.2.2.1 1 none
     (.badRequest "Cannot delete accommodation with active reservations") rfl,
   (claim_C7 stPending).2.2.2.2 1 (some 1) true "" 0 (.notFound "Rating not found") rfl⟩

/-! ## C3 — overlap exclusion in search -/

theorem hasOverlappingReservation_eq_false_iff {s : State} {f t : Int}
    {a : Accommodation} :
    hasOverlappingReservation s f t a = false ↔
      ∀ r ∈ s.reservations, r.accommodation = a.id →
        (r.status = "PENDING" ∨ r.status = "CONFIRMED") →
        ¬(r.reserved_from < t ∧ f < r.reserved_to) := by
  rw [← Bool.not_eq_true]
  unfold hasOverlappingReservation
  rw [List.any_eq_true]
  constructor
  · intro h r hr hacc hst hov
    refine h ⟨r, hr, ?_⟩
    simp only [Bool.and_eq_true, beq_iff_eq, decide_eq_true_eq, Bool.or_eq_true]
    exact ⟨⟨⟨hacc, hov.1⟩, hov.2⟩, hst⟩
  · rintro h ⟨r, hr, hcond⟩
    simp only [Bool.and_eq_true, beq_iff_eq, decide_eq_true_eq, Bool.or_eq_true] at hcond
    obtain ⟨⟨⟨hacc, h1⟩, h2⟩, hst⟩ := hcond
    exact h r hr hacc hst ⟨h1, h2⟩

/-- A fixture reservation that touches the query boundary exactly:
`reserved_to = 10 = query.available_from`. -/
def exResBoundary : Reservation :=
  { id := 1, accommodation := 1, member := 1, reserved_from := 0,
    reserved_to := 10, contact_name := "Peter", contact_phone := "12345678",
    status := "PENDING" }

/-- State for the boundary scenario: the accommodation is available and
only the boundary-touching PENDING reservation exists. -/
def stBoundary : State :=
  { accommodations := [exAcc], reservations := [exResBoundary],
    members := [exMember], nextReservationId := 2 }

/-- Search parameters asking for the window [10, 20) with no campus. -/
def pB : SearchParams := { available_from := some 10, available_to := some 20,
                           member_id := some 1 }

/-- A stand-in distance oracle for witnesses. -/
def dist0 : Accommodation → Campus → Rat := fun _ _ => 0

/-- C3: when both `available_from` and `available_to` are supplied, every
accommodation appearing in a successful search result has no PENDING or
CONFIRMED reservation strictly overlapping the query window in the
half-open sense, and conversely an accommodation passing the base
filters whose active reservations all fail the strict test — in
particular one whose reservation merely touches the boundary
(`reserved_to = query.available_from`) — is not excluded. -/
theorem claim_C3 (p : SearchParams) (dist : Accommodation → Campus → Rat)
    (s : State) (mid : Nat) (member : Member) (l : List SearchRow) (f t : Int)
    (hmid : p.member_id = some mid)
    (hmem : s.findMember mid = some member)
    (hpf : p.available_from = some f)
    (hpt : p.available_to = some t)
    (hok : AccommodationViewSet.search p dist s = .ok l) :
    (∀ a d, (a, d) ∈ l →
      ∀ r ∈ s.reservations, r.accommodation = a.id →
        (r.status = "PENDING" ∨ r.status = "CONFIRMED") →
        ¬(r.reserved_from < t ∧ f < r.reserved_to)) ∧
    (∀ a, a ∈ s.accommodations →
      member.university ∈ a.universities →
      a.is_available = true →
      (∀ v, p.type = some v → a.type = v) →
      a.available_from ≤ f →
      t ≤ a.available_to →
      (∀ v, p.num_beds = some v → v ≤ a.num_beds) →
      (∀ v, p.num_bedrooms = some v → v ≤ a.num_bedrooms) →
      (∀ v, p.min_price = some v → v ≤ a.monthly_rent) →
      (∀ v, p.max_price = some v → a.monthly_rent ≤ v) →
      (∀ r ∈ s.reservations, r.accommodation = a.id →
        (r.status = "PENDING" ∨ r.status = "CONFIRMED") →
        ¬(r.reserved_from < t ∧ f < r.reserved_to)) →
      ∃ d, (a, d) ∈ l) := by
  constructor
  · intro a d hd r hr hacc hst
    have hmem2 := (mem_search_ok hmid hmem hok).mp ⟨d, hd⟩
    have hq := mem_searchQueryset.mp hmem2
    have hov := hq.2.2.2.2.2.2.2.2.2.2 f t hpf hpt
    exact hasOverlappingReservation_eq_false_iff.mp hov r hr hacc hst
  · intro a ha hu hav htyp haf hat hbeds hbr hmin hmax hnov
    refine (mem_search_ok hmid hmem hok).mpr ?_
    refine mem_searchQueryset.mpr ⟨ha, hu, hav, htyp, ?_, ?_, hbeds, hbr, hmin, hmax, ?_⟩
    · intro v hv
      rw [hpf] at hv
      cases hv
      exact haf
    · intro v hv
      rw [hpt] at hv
      cases hv
      exact hat
    · intro f2 t2 hf2 ht2
      rw [hpf] at hf2
      rw [hpt] at ht2
      cases hf2
      cases ht2
      exact hasOverlappingReservation_eq_false_iff.mpr hnov

/-- Witness for C3: the boundary reservation (`reserved_to = 10 = query.from`)
does not satisfy the strict overlap test, and the accommodation carrying
it appears in the search result for window [10, 20). -/
theorem claim_C3_witness :
    ¬(exResBoundary.reserved_from < 20 ∧ 10 < exResBoundary.reserved_to) ∧
    ∃ d, (exAcc, d) ∈ [(exAcc, (none : Option Rat))] :=
  ⟨(claim_C3 pB dist0 stBoundary 1 exMember [(exAcc, none)] 10 20
      rfl rfl rfl rfl rfl).1 exAcc none (by decide) exResBoundary (by decide)
      rfl (Or.inl rfl),
   (claim_C3 pB dist0 stBoundary 1 exMember [(exAcc, none)] 10 20
      rfl rfl rfl rfl rfl).2 exAcc (by decide) (by decide) rfl
      (fun v hv => Option.noConfusion hv) (by decide) (by decide)
      (fun v hv => Option.noConfusion hv) (fun v hv => Option.noConfusion hv)
      (fun v hv => Option.noConfusion hv) (fun v hv => Option.noConfusion hv)
      (by decide)⟩

/-! ## C4 — member scoping, filters, and price ordering of search -/

/-- C4: every successful search with a resolved member returns only
accommodations associated with the member's university, currently
available, and satisfying every supplied optional filter; under
`price_asc` the rows are in non-decreasing `monthly_rent` order, under
`price_desc` non-increasing. -/
theorem claim_C4 (p : SearchParams) (dist : Accommodation → Campus → Rat)
    (s : State) (mid : Nat) (member : Member) (l : List SearchRow)
    (hmid : p.member_id = some mid)
    (hmem : s.findMember mid = some member)
    (hok : AccommodationViewSet.search p dist s = .ok l) :
    (∀ a d, (a, d) ∈ l →
      member.university ∈ a.universities ∧ a.is_available = true ∧
      (∀ v, p.type = some v → a.type = v) ∧
      (∀ v, p.available_from = some v → a.available_from ≤ v) ∧
      (∀ v, p.available_to = some v → v ≤ a.available_to) ∧
      (∀ v, p.num_beds = some v → v ≤ a.num_beds) ∧
      (∀ v, p.num_bedrooms = some v → v ≤ a.num_bedrooms) ∧
      (∀ v, p.min_price = some v → v ≤ a.monthly_rent) ∧
      (∀ v, p.max_price = some v → a.monthly_rent ≤ v)) ∧
    (p.sort_by = "price_asc" →
      l.Pairwise (fun x y => x.1.monthly_rent ≤ y.1.monthly_rent)) ∧
    (p.sort_by = "price_desc" →
      l.Pairwise (fun x y => y.1.monthly_rent ≤ x.1.monthly_rent)) := by
  refine ⟨?_, ?_, ?_⟩
  · intro a d hd
    have hq := mem_searchQueryset.mp ((mem_search_ok hmid hmem hok).mp ⟨d, hd⟩)
    exact ⟨hq.2.1, hq.2.2.1, hq.2.2.2.1, hq.2.2.2.2.1, hq.2.2.2.2.2.1,
      hq.2.2.2.2.2.2.1, hq.2.2.2.2.2.2.2.1, hq.2.2.2.2.2.2.2.2.1,
      hq.2.2.2.2.2.2.2.2.2.1⟩
  · intro hsort
    unfold AccommodationViewSet.search at hok
    rw [hmid] at hok
    simp only [hmem] at hok
    simp only [hsort, beq_self_eq_true, if_true, Except.ok.injEq] at hok
    subst hok
    rw [List.pairwise_map]
    exact pairwise_sortByKey
  · intro hsort
    unfold AccommodationViewSet.search at hok
    rw [hmid] at hok
    simp only [hmem] at hok
    have h1 : (("price_desc" : String) == "price_asc") = false := rfl
    simp only [hsort, h1, beq_self_eq_true, Bool.false_eq_true, if_false, if_true,
      Except.ok.injEq] at hok
    subst hok
    rw [List.pairwise_map]
    refine List.Pairwise.imp ?_ pairwise_sortByKey
    intro a b hab
    exact neg_le_neg_iff.mp hab

/-- A second, pricier accommodation for the sorting witness. -/
def exAcc2 : Accommodation := { exAcc with id := 2, monthly_rent := 7000 }

/-- State with the two accommodations listed pricier-first. -/
def stTwo : State := { accommodations := [exAcc2, exAcc], members := [exMember] }

/-- Search parameters with only `member_id` and `price_asc` sorting. -/
def pA : SearchParams := { sort_by := "price_asc", member_id := some 1 }

/-- Witness for C4: on the two-accommodation fixture the `price_asc`
search returns the rows in non-decreasing rent order, and the first row
is university-associated and available. -/
theorem claim_C4_witness :
    ([(exAcc, (none : Option Rat)), (exAcc2, none)].Pairwise
      (fun x y => x.1.monthly_rent ≤ y.1.monthly_rent)) ∧
    exMember.university ∈ exAcc.universities ∧ exAcc.is_available = true :=
  ⟨(claim_C4 pA dist0 stTwo 1 exMember [(exAcc, none), (exAcc2, none)]
      rfl rfl rfl).2.1 rfl,
   ((claim_C4 pA dist0 stTwo 1 exMember [(exAcc, none), (exAcc2, none)]
      rfl rfl rfl).1 exAcc none (by decide)).1,
   ((claim_C4 pA dist0 stTwo 1 exMember [(exAcc, none), (exAcc2, none)]
      rfl rfl rfl).1 exAcc none (by decide)).2.1⟩

/-! ## C10 — price sorts ignore `campus_id` entirely -/

theorem searchQueryset_campus (p : SearchParams) (c : Option Nat) (s : State)
    (member : Member) :
    searchQueryset { p with campus_id := c } s member = searchQueryset p s member := rfl

theorem search_price_asc_shape {p : SearchParams}
    {dist : Accommodation → Campus → Rat} {s : State} {mid : Nat}
    {member : Member}
    (hmid : p.member_id = some mid)
    (hmem : s.findMember mid = some member)
    (h : p.sort_by = "price_asc") :
    AccommodationViewSet.search p dist s =
      .ok ((sortByKey (fun a => a.monthly_rent) (searchQueryset p s member)).map
        (fun a => (a, none))) := by
  unfold AccommodationViewSet.search
  rw [hmid]
  simp only [hmem]
  simp only [h, beq_self_eq_true, if_true]

theorem search_price_desc_shape {p : SearchParams}
    {dist : Accommodation → Campus → Rat} {s : State} {mid : Nat}
    {member : Member}
    (hmid : p.member_id = some mid)
    (hmem : s.findMember mid = some member)
    (h : p.sort_by = "price_desc") :
    AccommodationViewSet.search p dist s =
      .ok ((sortByKey (fun a => -a.monthly_rent) (searchQueryset p s member)).map
        (fun a => (a, none))) := by
  unfold AccommodationViewSet.search
  rw [hmid]
  simp only [hmem]
  have h1 : (("price_desc" : String) == "price_asc") = false := rfl
  simp only [h, h1, beq_self_eq_true, Bool.false_eq_true, if_false, if_true]

/-- C10: when `sort_by` is `price_asc` or `price_desc`, the search result
does not depend on `campus_id` at all — in particular no campus
not-found error can arise — and with a resolved member the response is a
success whose rows carry no `distance` annotation. -/
theorem claim_C10 (p : SearchParams) (dist : Accommodation → Campus → Rat)
    (s : State) (c : Option Nat)
    (hsort : p.sort_by = "price_asc" ∨ p.sort_by = "price_desc") :
    AccommodationViewSet.search { p with campus_id := c } dist s =
      AccommodationViewSet.search { p with campus_id := none } dist s ∧
    (∀ mid member, p.member_id = some mid → s.findMember mid = some member →
      ∃ l, AccommodationViewSet.search { p with campus_id := c } dist s = .ok l ∧
        ∀ row ∈ l, row.2 = (none : Option Rat)) := by
  constructor
  · cases hm : p.member_id with
    | none =>
      unfold AccommodationViewSet.search
      dsimp only
    | some mid =>
      cases hfm : s.findMember mid with
      | none =>
        unfold AccommodationViewSet.search
        dsimp only
        simp only [hfm]
      | some member =>
        rcases hsort with h | h
        · exact (search_price_asc_shape
              (p := { p with campus_id := c, member_id := some mid })
              rfl hfm h).trans
            (search_price_asc_shape
              (p := { p with campus_id := none, member_id := some mid })
              rfl hfm h).symm
        · exact (search_price_desc_shape
              (p := { p with campus_id := c, member_id := some mid })
              rfl hfm h).trans
            (search_price_desc_shape
              (p := { p with campus_id := none, member_id := some mid })
              rfl hfm h).symm
  · intro mid member hmid hmem
    rcases hsort with h | h
    · refine ⟨_, search_price_asc_shape hmid hmem h, ?_⟩
      intro row hrow
      rcases List.mem_map.mp hrow with ⟨a, _, rfl⟩
      rfl
    · refine ⟨_, search_price_desc_shape hmid hmem h, ?_⟩
      intro row hrow
      rcases List.mem_map.mp hrow with ⟨a, _, rfl⟩
      rfl

/-- Witness for C10: with a dangling `campus_id = 999` (no campuses
exist in the fixture) the `price_asc` search still succeeds, equals the
campus-free search, and annotates no distance. -/
theorem claim_C10_witness :
    (AccommodationViewSet.search { pA with campus_id := some 999 } dist0 stAvail =
      AccommodationViewSet.search { pA with campus_id := none } dist0 stAvail) ∧
    ∃ l, AccommodationViewSet.search { pA with campus_id := some 999 } dist0 stAvail =
        .ok l ∧ ∀ row ∈ l, row.2 = (none : Option Rat) :=
  ⟨(claim_C10 pA dist0 stAvail (some 999) (Or.inl rfl)).1,
   (claim_C10 pA dist0 stAvail (some 999) (Or.inl rfl)).2 1 exMember rfl rfl⟩

/-! ## C8 — rating eligibility and the creation gate -/

/-- C8: `can_be_rated` holds exactly when the reservation is COMPLETED
and no Rating references it, and rating creation succeeds only when this
predicate holds of the owning reservation. -/
theorem claim_C8 (s : State) :
    (∀ r : Reservation, r.can_be_rated s = true ↔
      (r.status = "COMPLETED" ∧ ∀ rt ∈ s.ratings, rt.reservation ≠ r.id)) ∧
    (∀ resId score s2 rt, createRating resId score s = (s2, .ok rt) →
      ∃ res, s.findReservation resId = some res ∧ res.can_be_rated s = true) := by
  constructor
  · intro r
    unfold Reservation.can_be_rated
    constructor
    · intro h
      simp only [Bool.and_eq_true, beq_iff_eq] at h
      obtain ⟨h1, h2⟩ := h
      refine ⟨h1, ?_⟩
      intro rt hrt heq2
      have hany : s.ratings.any (fun rt => rt.reservation == r.id) = true :=
        List.any_eq_true.mpr ⟨rt, hrt, by simp [heq2]⟩
      rw [hany] at h2
      simp at h2
    · rintro ⟨h1, h2⟩
      have hany : s.ratings.any (fun rt => rt.reservation == r.id) = false := by
        rw [← Bool.not_eq_true, List.any_eq_true]
        rintro ⟨rt, hrt, hbeq⟩
        exact h2 rt hrt (by simpa using hbeq)
      simp [h1, hany]
  · intro resId score s2 rt h
    unfold createRating at h
    split at h
    · simp [Prod.ext_iff] at h
    · rename_i res heq
      split at h
      · simp [Prod.ext_iff] at h
      · rename_i hcan
        split at h
        · simp [Prod.ext_iff] at h
        · exact ⟨res, heq, by simpa using hcan⟩

/-- Witness for C8: the eligibility of the completed, unrated fixture
reservation and a successful rating creation against it. -/
theorem claim_C8_witness :
    (exResCompleted.can_be_rated stCompleted = true ↔
      (exResCompleted.status = "COMPLETED" ∧
        ∀ rt ∈ stCompleted.ratings, rt.reservation ≠ exResCompleted.id)) ∧
    ∃ res, stCompleted.findReservation 1 = some res ∧
      res.can_be_rated stCompleted = true :=
  ⟨(claim_C8 stCompleted).1 exResCompleted,
   (claim_C8 stCompleted).2 1 5 (createRating 1 5 stCompleted).1
     { id := 1, accommodation := 1, member := 1, reservation := 1, score := 5,
       is_approved := true, moderated_by := none, moderation_date := none,
       moderation_note := "" } rfl⟩

end UniHaven
